import Mathlib

/-
Shallow embedding of drivers/media/platform/qcom/venus/pm_helpers.c
(plus pm_helpers.h) — the Venus power-management helpers: clock-set
management, the v3/v4 register handshake primitives, the per-core power
sequencer, the three per-generation strategy tables and their selector.

External kernel primitives (clk_prepare_enable, pm_runtime_get_sync,
devm_clk_get, ...) are modelled by an explicit environment `Env` that
fixes the result of every such call, and a state `St` that records
clock enable counts, register contents, resolved handles and the
ordered trace of external calls.
-/

/-- POWER_ON from pm_helpers.h (`#define POWER_ON 1`). -/
def POWER_ON : Nat := 1

/-- POWER_OFF from pm_helpers.h (`#define POWER_OFF 0`). -/
def POWER_OFF : Nat := 0

/-- Modelled from the spec: VIDC_CORE_ID_1 (core.h is not under src/); CoreId is
a bitmask with one bit per core, CORE_1 being the first bit. -/
def VIDC_CORE_ID_1 : Nat := 1

/-- Modelled from the spec: VIDC_CORE_ID_2 (core.h is not under src/); the
second CoreId bit. -/
def VIDC_CORE_ID_2 : Nat := 2

/-- Modelled from the spec: VIDC_SESSION_TYPE_DEC (core.h is not under src/);
the decode session type tag. Only its distinctness from ENC matters. -/
def VIDC_SESSION_TYPE_DEC : Nat := 2

/-- Modelled from the spec: VIDC_SESSION_TYPE_ENC (core.h is not under src/). -/
def VIDC_SESSION_TYPE_ENC : Nat := 1

/-- errno ETIMEDOUT, returned (negated) by the poll primitive on timeout. -/
def ETIMEDOUT : Int := 110

/-- errno ENODEV, returned (negated) when device_link_add yields NULL. -/
def ENODEV : Int := 19

/-- Identity of a clock handle stored on `struct venus_core`: one of the
shared clocks `core->clks[i]`, or one of the four named per-core clocks. -/
inductive ClkId
  | shared (i : Nat)
  | core0_clk
  | core0_bus_clk
  | core1_clk
  | core1_bus_clk
deriving DecidableEq

/-- Identity of a power-domain handle on `struct venus_core`. -/
inductive PdId
  | pd_core
  | pd_core0
  | pd_core1
deriving DecidableEq

/-- The memory-mapped registers touched by pm_helpers.c (offsets from
hfi_venus_io.h, identified symbolically). -/
inductive Reg
  | vdec_ctrl   -- WRAPPER_VDEC_VCODEC_POWER_CONTROL
  | venc_ctrl   -- WRAPPER_VENC_VCODEC_POWER_CONTROL
  | c0_ctrl     -- WRAPPER_VCODEC0_MMCC_POWER_CONTROL
  | c0_stat     -- WRAPPER_VCODEC0_MMCC_POWER_STATUS
  | c1_ctrl     -- WRAPPER_VCODEC1_MMCC_POWER_CONTROL
  | c1_stat     -- WRAPPER_VCODEC1_MMCC_POWER_STATUS
deriving DecidableEq

/-- One external call performed by the code, in program order. -/
inductive Event
  | clkEnable (c : ClkId)          -- clk_prepare_enable
  | clkDisable (c : ClkId)         -- clk_disable_unprepare
  | writeCtrl (r : Reg) (v : Nat)  -- writel
  | pollStat (r : Reg) (polls : Nat) -- readl_poll_timeout (polls = reads done)
  | pmGet (p : PdId)               -- pm_runtime_get_sync
  | pmPut (p : PdId)               -- pm_runtime_put_sync
  | clkGet (name : String)         -- devm_clk_get
  | pdAttach (name : String)       -- dev_pm_domain_attach_by_name
  | linkAdd                        -- device_link_add
  | linkDel                        -- device_link_del
  | pdDetach (p : PdId)            -- dev_pm_domain_detach
deriving DecidableEq

/-- A kernel pointer-like handle as the C code distinguishes them:
NULL, an ERR_PTR carrying an errno, or a valid pointer. -/
inductive Handle
  | null
  | err (e : Int)
  | valid
deriving DecidableEq

/-- IS_ERR from the kernel: true exactly on ERR_PTR values. -/
def IS_ERR : Handle → Bool
  | .err _ => true
  | _ => false

/-- PTR_ERR: the errno carried by an ERR_PTR (unused on other handles). -/
def PTR_ERR : Handle → Int
  | .err e => e
  | _ => 0

/-- IS_ERR_OR_NULL from the kernel. -/
def IS_ERR_OR_NULL : Handle → Bool
  | .null => true
  | .err _ => true
  | .valid => false

/-- The resource descriptor table (`struct venus_resources`): the names of
the shared clocks; `clks_num` is its length. -/
structure VenusResources where
  clks : List String

/-- Environment fixing the result of every fallible external call.
`stat r c i` is the value the i-th poll of status register `r` reads while
the matching control register holds `c` (a deterministic test double for
the hardware status source). -/
structure Env where
  clkEnableRes : ClkId → Int
  pmGetRes : PdId → Int
  pmPutRes : PdId → Int
  stat : Reg → Nat → Nat → Nat
  clkGet : String → Handle
  pdAttach : String → Handle
  linkAdd : Bool

/-- Mutable state: clock enable counts, register contents, the handles
stored on `struct venus_core`, and the trace of external calls made. -/
@[ext]
structure St where
  clkCnt : ClkId → Nat
  regs : Reg → Nat
  clkHandle : ClkId → Handle
  pd_core : Handle
  pd_core0 : Handle
  pd_core1 : Handle
  pd_dl_venus : Option Unit
  trace : List Event

/-- Append one external-call event to the trace. -/
def St.log (s : St) (e : Event) : St := { s with trace := s.trace ++ [e] }

/-- clk_prepare_enable: logged always; on success (environment result 0)
the clock's enable count is incremented. -/
def clk_prepare_enable (env : Env) (c : ClkId) (s : St) : Int × St :=
  let s1 := s.log (Event.clkEnable c)
  if env.clkEnableRes c = 0 then
    (0, { s1 with clkCnt := fun x => if x = c then s1.clkCnt x + 1 else s1.clkCnt x })
  else
    (env.clkEnableRes c, s1)

/-- clk_disable_unprepare: void; decrements the clock's enable count. -/
def clk_disable_unprepare (c : ClkId) (s : St) : St :=
  let s1 := s.log (Event.clkDisable c)
  { s1 with clkCnt := fun x => if x = c then s1.clkCnt x - 1 else s1.clkCnt x }

/-- writel: store `v` into register `r`. -/
def writel (v : Nat) (r : Reg) (s : St) : St :=
  let s1 := s.log (Event.writeCtrl r v)
  { s1 with regs := fun x => if x = r then v else s1.regs x }

/-- pm_runtime_get_sync on a power-domain handle. -/
def pm_runtime_get_sync (env : Env) (p : PdId) (s : St) : Int × St :=
  (env.pmGetRes p, s.log (Event.pmGet p))

/-- pm_runtime_put_sync on a power-domain handle. -/
def pm_runtime_put_sync (env : Env) (p : PdId) (s : St) : Int × St :=
  (env.pmPutRes p, s.log (Event.pmPut p))

/-- devm_clk_get: resolve a named clock. -/
def devm_clk_get (env : Env) (name : String) (s : St) : Handle × St :=
  (env.clkGet name, s.log (Event.clkGet name))

/-- dev_pm_domain_attach_by_name: resolve a named power domain. -/
def dev_pm_domain_attach_by_name (env : Env) (name : String) (s : St) : Handle × St :=
  (env.pdAttach name, s.log (Event.pdAttach name))

/-- device_link_add: returns the new link or none (NULL) on failure. -/
def device_link_add (env : Env) (s : St) : Option Unit × St :=
  ((if env.linkAdd then some () else none), s.log Event.linkAdd)

/-- Modelled from the spec: `readl_poll_timeout` (include/linux/iopoll.h) is
not under src/. Per §4.2/§9 of the spec it is a bounded retry loop with
explicit interval and timeout that reads the status source once per
interval and gives up after timeout/interval polls. `pollFrom stat cond i
fuel` polls indices i, i+1, ...; it returns (0, polls done) at the first
read satisfying `cond`, and (-ETIMEDOUT, polls done) when fuel runs out. -/
def pollFrom (stat : Nat → Nat) (cond : Nat → Bool) : Nat → Nat → Int × Nat
  | i, 0 => (-ETIMEDOUT, i)
  | i, fuel + 1 =>
    if cond (stat i) then (0, i + 1) else pollFrom stat cond (i + 1) fuel

/-- Modelled from the spec: the poll-with-timeout primitive; performs at most
`timeout_us / sleep_us` reads of `stat`. -/
def readl_poll_timeout (stat : Nat → Nat) (cond : Nat → Bool)
    (sleep_us timeout_us : Nat) : Int × Nat :=
  pollFrom stat cond 0 (timeout_us / sleep_us)

/-- Clock-set enable loop of core_clks_enable: from index `i` with
`remaining` clocks left; on a failed enable at index i the already-enabled
clocks [0, i) are disabled in reverse order (the `while (i--)` rollback,
`clks_disable_down`). -/
def clks_disable_down : Nat → St → St
  | 0, s => s
  | i + 1, s => clks_disable_down i (clk_disable_unprepare (ClkId.shared i) s)

def core_clks_enable_from (env : Env) : Nat → Nat → St → Int × St
  | _, 0, s => (0, s)
  | i, remaining + 1, s =>
    let a := clk_prepare_enable env (ClkId.shared i) s
    if a.1 ≠ 0 then (a.1, clks_disable_down i a.2)
    else core_clks_enable_from env (i + 1) remaining a.2

/-- core_clks_enable: enable all `res->clks_num` shared clocks in order,
rolling back in reverse order on the first failure. -/
def core_clks_enable (env : Env) (res : VenusResources) (s : St) : Int × St :=
  core_clks_enable_from env 0 res.clks.length s

/-- core_clks_disable: disable all shared clocks in reverse order. -/
def core_clks_disable (res : VenusResources) (s : St) : St :=
  clks_disable_down res.clks.length s

/-- core_clks_get: resolve each named shared clock in order, storing the
handle into `core->clks[i]`; abort with PTR_ERR on the first IS_ERR. -/
def core_clks_get_from (env : Env) : List String → Nat → St → Int × St
  | [], _, s => (0, s)
  | name :: rest, i, s =>
    let a := devm_clk_get env name s
    let s1 := { a.2 with clkHandle := fun x => if x = ClkId.shared i then a.1 else a.2.clkHandle x }
    if IS_ERR a.1 then (PTR_ERR a.1, s1)
    else core_clks_get_from env rest (i + 1) s1

def core_clks_get (env : Env) (res : VenusResources) (s : St) : Int × St :=
  core_clks_get_from env res.clks 0 s

/-- Register pair (control, status) used by the v4 handshake for a core. -/
def vcodec_regs (coreid : Nat) : Reg × Reg :=
  if coreid = VIDC_CORE_ID_1 then (Reg.c0_ctrl, Reg.c0_stat)
  else (Reg.c1_ctrl, Reg.c1_stat)

/-- vcodec_power_control_v3: select the per-session control register and
write 0 (enable) or 1 (disable); no status polling on this generation. -/
def vcodec_power_control_v3 (session_type : Nat) (enable : Bool) (s : St) : St :=
  let ctrl := if session_type = VIDC_SESSION_TYPE_DEC then Reg.vdec_ctrl else Reg.venc_ctrl
  if enable then writel 0 ctrl s else writel 1 ctrl s

/-- vcodec_power_control_v4: write the control bit, then poll the matching
status register for BIT(1) set (enable) or clear (disable), with a 1 us
interval and a 100 us timeout. -/
def vcodec_power_control_v4 (env : Env) (coreid : Nat) (enable : Bool) (s : St) : Int × St :=
  let ctrl := (vcodec_regs coreid).1
  let stat := (vcodec_regs coreid).2
  if enable then
    let s1 := writel 0 ctrl s
    let pr := readl_poll_timeout (env.stat stat 0) (fun v => v.testBit 1) 1 100
    let s2 := s1.log (Event.pollStat stat pr.2)
    if pr.1 ≠ 0 then (pr.1, s2) else (0, s2)
  else
    let s1 := writel 1 ctrl s
    let pr := readl_poll_timeout (env.stat stat 1) (fun v => !(v.testBit 1)) 1 100
    let s2 := s1.log (Event.pollStat stat pr.2)
    if pr.1 ≠ 0 then (pr.1, s2) else (0, s2)

/-- CORE_2 half of poweroff_by_core_id; `ret` is the value the C code's
`ret` variable carries into the second `if` block (returned unchanged when
the CORE_2 bit is not set). -/
def poweroff_core2 (env : Env) (coreid_mask : Nat) (ret : Int) (s : St) : Int × St :=
  if coreid_mask &&& VIDC_CORE_ID_2 ≠ 0 then
    let a := vcodec_power_control_v4 env VIDC_CORE_ID_2 true s
    if a.1 ≠ 0 then a
    else
      let s1 := clk_disable_unprepare ClkId.core1_clk (clk_disable_unprepare ClkId.core1_bus_clk a.2)
      let b := vcodec_power_control_v4 env VIDC_CORE_ID_2 false s1
      pm_runtime_put_sync env PdId.pd_core1 b.2
  else (ret, s)

/-- poweroff_by_core_id: per core, assert handshake (fatal on failure),
disable bus then core clock, de-assert handshake (failure only logged),
release the power domain (fatal when negative for CORE_1). When neither
core bit is set the C function returns an uninitialized `ret`; the model
returns 0 there (no claim depends on an empty mask). -/
def poweroff_by_core_id (env : Env) (coreid_mask : Nat) (s : St) : Int × St :=
  if coreid_mask &&& VIDC_CORE_ID_1 ≠ 0 then
    let a := vcodec_power_control_v4 env VIDC_CORE_ID_1 true s
    if a.1 ≠ 0 then a
    else
      let s1 := clk_disable_unprepare ClkId.core0_clk (clk_disable_unprepare ClkId.core0_bus_clk a.2)
      let b := vcodec_power_control_v4 env VIDC_CORE_ID_1 false s1
      let c := pm_runtime_put_sync env PdId.pd_core0 b.2
      if c.1 < 0 then c
      else poweroff_core2 env coreid_mask c.1 c.2
  else poweroff_core2 env coreid_mask 0 s

/-- CORE_2 half of poweron_by_core_id; `ret` as in `poweroff_core2`. -/
def poweron_core2 (env : Env) (coreid_mask : Nat) (ret : Int) (s : St) : Int × St :=
  if coreid_mask &&& VIDC_CORE_ID_2 ≠ 0 then
    let a := pm_runtime_get_sync env PdId.pd_core1 s
    if a.1 < 0 then a
    else
      let b := vcodec_power_control_v4 env VIDC_CORE_ID_2 true a.2
      if b.1 ≠ 0 then b
      else
        let c := clk_prepare_enable env ClkId.core1_clk b.2
        if c.1 ≠ 0 then c
        else
          let d := clk_prepare_enable env ClkId.core1_bus_clk c.2
          if d.1 ≠ 0 then d
          else vcodec_power_control_v4 env VIDC_CORE_ID_2 false d.2
  else (ret, s)

/-- poweron_by_core_id: per core, acquire the power domain, assert the
handshake, enable core then core-bus clock, de-assert the handshake; every
failure aborts immediately. As in poweroff, an empty mask is modelled as
returning 0. -/
def poweron_by_core_id (env : Env) (coreid_mask : Nat) (s : St) : Int × St :=
  if coreid_mask &&& VIDC_CORE_ID_1 ≠ 0 then
    let a := pm_runtime_get_sync env PdId.pd_core0 s
    if a.1 < 0 then a
    else
      let b := vcodec_power_control_v4 env VIDC_CORE_ID_1 true a.2
      if b.1 ≠ 0 then b
      else
        let c := clk_prepare_enable env ClkId.core0_clk b.2
        if c.1 ≠ 0 then c
        else
          let d := clk_prepare_enable env ClkId.core0_bus_clk c.2
          if d.1 ≠ 0 then d
          else
            let e := vcodec_power_control_v4 env VIDC_CORE_ID_1 false d.2
            if e.1 < 0 then e
            else poweron_core2 env coreid_mask e.1 e.2
  else poweron_core2 env coreid_mask 0 s

/-- core_get_pm_v1: resolve the shared clock set only. -/
def core_get_pm_v1 (env : Env) (res : VenusResources) (s : St) : Int × St :=
  core_clks_get env res s

/-- core_power_v1: enable the shared clock set on POWER_ON, disable it
otherwise. -/
def core_power_v1 (env : Env) (res : VenusResources) (onoff : Nat) (s : St) : Int × St :=
  if onoff = POWER_ON then core_clks_enable env res s
  else (0, core_clks_disable res s)

/-- vdec_get_pm_v3: resolve the decoder core clock ("core"). -/
def vdec_get_pm_v3 (env : Env) (_res : VenusResources) (s : St) : Int × St :=
  let a := devm_clk_get env "core" s
  let s1 := { a.2 with clkHandle := fun x => if x = ClkId.core0_clk then a.1 else a.2.clkHandle x }
  if IS_ERR a.1 then (PTR_ERR a.1, s1) else (0, s1)

/-- vdec_power_v3: wrap the decoder core-clock enable/disable in an
assert/de-assert of the decoder session control bit. -/
def vdec_power_v3 (env : Env) (_res : VenusResources) (onoff : Nat) (s : St) : Int × St :=
  if onoff = POWER_ON then
    let s1 := vcodec_power_control_v3 VIDC_SESSION_TYPE_DEC true s
    let a := clk_prepare_enable env ClkId.core0_clk s1
    let s2 := vcodec_power_control_v3 VIDC_SESSION_TYPE_DEC false a.2
    (a.1, s2)
  else
    let s1 := vcodec_power_control_v3 VIDC_SESSION_TYPE_DEC true s
    let s2 := clk_disable_unprepare ClkId.core0_clk s1
    let s3 := vcodec_power_control_v3 VIDC_SESSION_TYPE_DEC false s2
    (0, s3)

/-- venc_get_pm_v3: resolve the encoder core clock ("core"). -/
def venc_get_pm_v3 (env : Env) (_res : VenusResources) (s : St) : Int × St :=
  let a := devm_clk_get env "core" s
  let s1 := { a.2 with clkHandle := fun x => if x = ClkId.core1_clk then a.1 else a.2.clkHandle x }
  if IS_ERR a.1 then (PTR_ERR a.1, s1) else (0, s1)

/-- venc_power_v3: encoder analogue of vdec_power_v3. -/
def venc_power_v3 (env : Env) (_res : VenusResources) (onoff : Nat) (s : St) : Int × St :=
  if onoff = POWER_ON then
    let s1 := vcodec_power_control_v3 VIDC_SESSION_TYPE_ENC true s
    let a := clk_prepare_enable env ClkId.core1_clk s1
    let s2 := vcodec_power_control_v3 VIDC_SESSION_TYPE_ENC false a.2
    (a.1, s2)
  else
    let s1 := vcodec_power_control_v3 VIDC_SESSION_TYPE_ENC true s
    let s2 := clk_disable_unprepare ClkId.core1_clk s1
    let s3 := vcodec_power_control_v3 VIDC_SESSION_TYPE_ENC false s2
    (0, s3)

/-- core_get_pm_v4: resolve, in order, the shared clock set, the four
per-core clocks, the three power domains, then establish the device link;
the first failing step aborts with its specific error. -/
def core_get_pm_v4 (env : Env) (res : VenusResources) (s : St) : Int × St :=
  let a := core_clks_get env res s
  if a.1 ≠ 0 then a
  else
    let b := devm_clk_get env "vcodec0_core" a.2
    let sb := { b.2 with clkHandle := fun x => if x = ClkId.core0_clk then b.1 else b.2.clkHandle x }
    if IS_ERR b.1 then (PTR_ERR b.1, sb)
    else
      let c := devm_clk_get env "vcodec0_bus" sb
      let sc := { c.2 with clkHandle := fun x => if x = ClkId.core0_bus_clk then c.1 else c.2.clkHandle x }
      if IS_ERR c.1 then (PTR_ERR c.1, sc)
      else
        let d := devm_clk_get env "vcodec1_core" sc
        let sd := { d.2 with clkHandle := fun x => if x = ClkId.core1_clk then d.1 else d.2.clkHandle x }
        if IS_ERR d.1 then (PTR_ERR d.1, sd)
        else
          let e := devm_clk_get env "vcodec1_bus" sd
          let se := { e.2 with clkHandle := fun x => if x = ClkId.core1_bus_clk then e.1 else e.2.clkHandle x }
          if IS_ERR e.1 then (PTR_ERR e.1, se)
          else
            let f := dev_pm_domain_attach_by_name env "venus" se
            let sf := { f.2 with pd_core := f.1 }
            if IS_ERR f.1 then (PTR_ERR f.1, sf)
            else
              let g := dev_pm_domain_attach_by_name env "vcodec0" sf
              let sg := { g.2 with pd_core0 := g.1 }
              if IS_ERR g.1 then (PTR_ERR g.1, sg)
              else
                let h := dev_pm_domain_attach_by_name env "vcodec1" sg
                let sh := { h.2 with pd_core1 := h.1 }
                if IS_ERR h.1 then (PTR_ERR h.1, sh)
                else
                  let l := device_link_add env sh
                  let sl := { l.2 with pd_dl_venus := l.1 }
                  if l.1 = none then (-ENODEV, sl) else (0, sl)

/-- core_put_pm_v4: delete the device link only if present, detach each
power domain only if its handle is neither NULL nor an ERR_PTR. -/
def core_put_pm_v4 (_env : Env) (_res : VenusResources) (s : St) : St :=
  let s1 := if s.pd_dl_venus.isSome then s.log Event.linkDel else s
  let s2 := if ¬ IS_ERR_OR_NULL s1.pd_core then s1.log (Event.pdDetach PdId.pd_core) else s1
  let s3 := if ¬ IS_ERR_OR_NULL s2.pd_core0 then s2.log (Event.pdDetach PdId.pd_core0) else s2
  if ¬ IS_ERR_OR_NULL s3.pd_core1 then s3.log (Event.pdDetach PdId.pd_core1) else s3

/-- core_power_v4: POWER_ON enables the shared clock set (abort on failure)
then powers on both cores; POWER_OFF powers off both cores (failure only
logged) and then always disables the shared clock set. -/
def core_power_v4 (env : Env) (res : VenusResources) (onoff : Nat) (s : St) : Int × St :=
  if onoff = POWER_ON then
    let a := core_clks_enable env res s
    if a.1 ≠ 0 then a
    else poweron_by_core_id env (VIDC_CORE_ID_1 ||| VIDC_CORE_ID_2) a.2
  else
    let a := poweroff_by_core_id env (VIDC_CORE_ID_1 ||| VIDC_CORE_ID_2) s
    (a.1, core_clks_disable res a.2)

/-- The venus_pm_ops function table; unset C members (NULL) are `none`. -/
structure venus_pm_ops where
  core_get_pm : Option (Env → VenusResources → St → Int × St)
  core_put_pm : Option (Env → VenusResources → St → St)
  core_power : Option (Env → VenusResources → Nat → St → Int × St)
  vdec_get_pm : Option (Env → VenusResources → St → Int × St)
  vdec_power : Option (Env → VenusResources → Nat → St → Int × St)
  venc_get_pm : Option (Env → VenusResources → St → Int × St)
  venc_power : Option (Env → VenusResources → Nat → St → Int × St)

/-- venus_pm_ops_v1. -/
def venus_pm_ops_v1 : venus_pm_ops :=
  { core_get_pm := some core_get_pm_v1
    core_put_pm := none
    core_power := some core_power_v1
    vdec_get_pm := none
    vdec_power := none
    venc_get_pm := none
    venc_power := none }

/-- venus_pm_ops_v3 (shares the v1 core get/power operations). -/
def venus_pm_ops_v3 : venus_pm_ops :=
  { core_get_pm := some core_get_pm_v1
    core_put_pm := none
    core_power := some core_power_v1
    vdec_get_pm := some vdec_get_pm_v3
    vdec_power := some vdec_power_v3
    venc_get_pm := some venc_get_pm_v3
    venc_power := some venc_power_v3 }

/-- venus_pm_ops_v4. -/
def venus_pm_ops_v4 : venus_pm_ops :=
  { core_get_pm := some core_get_pm_v4
    core_put_pm := some core_put_pm_v4
    core_power := some core_power_v4
    vdec_get_pm := none
    vdec_power := none
    venc_get_pm := none
    venc_power := none }

/-- The hfi_version argument of venus_get_pm_ops. The C enum declares three
enumerators; any other integer value an enum variable may carry is modelled
by `unknown`. -/
inductive hfi_version
  | hfi_version_1xx
  | hfi_version_3xx
  | hfi_version_4xx
  | unknown (n : Nat)
deriving DecidableEq

/-- venus_get_pm_ops: switch on the generation; HFI_VERSION_1XX shares its
body with `default:`, so every unrecognized value yields the v1 table. The
C function's trailing `return NULL` is unreachable; the Option result
mirrors the nullable pointer type. -/
def venus_get_pm_ops : hfi_version → Option venus_pm_ops
  | .hfi_version_1xx => some venus_pm_ops_v1
  | .unknown _ => some venus_pm_ops_v1
  | .hfi_version_3xx => some venus_pm_ops_v3
  | .hfi_version_4xx => some venus_pm_ops_v4

/-! Observation helpers used by the theorem statements: the poll outcome of
one v4 handshake, its two-event trace, and concrete environments/states for
the witnesses. -/

/-- Result and poll count of the status poll inside
`vcodec_power_control_v4 env coreid enable`: the control register holds 0
when asserting and 1 when de-asserting, and the polled condition is BIT(1)
set resp. clear. -/
def pollOf (env : Env) (coreid : Nat) (enable : Bool) : Int × Nat :=
  readl_poll_timeout (env.stat (vcodec_regs coreid).2 (if enable then 0 else 1))
    (fun v => if enable then v.testBit 1 else !(v.testBit 1)) 1 100

/-- The two external calls a v4 handshake performs: the control write and
the status poll. -/
def vcodecTrace (env : Env) (coreid : Nat) (enable : Bool) : List Event :=
  [Event.writeCtrl (vcodec_regs coreid).1 (if enable then 0 else 1),
   Event.pollStat (vcodec_regs coreid).2 (pollOf env coreid enable).2]

/-- All-success environment for witnesses: every clock enable and pm call
succeeds, the status bit tracks the control register (BIT(1) set while the
control register holds 0), every handle resolves, the link add succeeds. -/
def env0 : Env :=
  { clkEnableRes := fun _ => 0
    pmGetRes := fun _ => 0
    pmPutRes := fun _ => 0
    stat := fun _ c _ => if c = 0 then 2 else 0
    clkGet := fun _ => Handle.valid
    pdAttach := fun _ => Handle.valid
    linkAdd := true }

/-- Fresh state for witnesses: nothing enabled, nothing resolved. -/
def initSt : St :=
  { clkCnt := fun _ => 0
    regs := fun _ => 0
    clkHandle := fun _ => Handle.null
    pd_core := Handle.null
    pd_core0 := Handle.null
    pd_core1 := Handle.null
    pd_dl_venus := none
    trace := [] }

/-- A two-clock shared resource table for witnesses. -/
def res0 : VenusResources := { clks := ["core", "iface"] }

/-- Environment in which enabling the second shared clock fails with -12. -/
def envC1 : Env :=
  { env0 with clkEnableRes := fun c => if c = ClkId.shared 1 then -12 else 0 }

/-- Environment in which releasing CORE_1's power domain fails with -5. -/
def envPut0 : Env :=
  { env0 with pmPutRes := fun p => if p = PdId.pd_core0 then -5 else 0 }

/-- Environment whose status registers never change (always read 0). -/
def envStat0 : Env :=
  { env0 with stat := fun _ _ _ => 0 }

/-- Outcome of one getPm resolution step: `none` when the resolved handle
passes the code's IS_ERR check, `some e` when it fails with error e. -/
def stepOut (h : Handle) : Option Int :=
  if IS_ERR h then some (PTR_ERR h) else none

/-- The resolution steps of V4 getPm in their fixed documented order (shared
clock set, both per-core clock pairs, shared power domain, both per-core
power domains, device link), each with its call event and outcome. -/
def v4StepList (env : Env) (res : VenusResources) : List (Event × Option Int) :=
  (res.clks.map fun nm => (Event.clkGet nm, stepOut (env.clkGet nm))) ++
  [(Event.clkGet "vcodec0_core", stepOut (env.clkGet "vcodec0_core")),
   (Event.clkGet "vcodec0_bus", stepOut (env.clkGet "vcodec0_bus")),
   (Event.clkGet "vcodec1_core", stepOut (env.clkGet "vcodec1_core")),
   (Event.clkGet "vcodec1_bus", stepOut (env.clkGet "vcodec1_bus")),
   (Event.pdAttach "venus", stepOut (env.pdAttach "venus")),
   (Event.pdAttach "vcodec0", stepOut (env.pdAttach "vcodec0")),
   (Event.pdAttach "vcodec1", stepOut (env.pdAttach "vcodec1")),
   (Event.linkAdd, if env.linkAdd then none else some (-ENODEV))]

/-- Following the spec's words: run resolution steps in order; the first
failing step's specific error is returned and no later step is performed.
Yields (returned value, call events performed, all-steps-succeeded flag). -/
def runFirstFailure : List (Event × Option Int) → Int × List Event × Bool
  | [] => (0, [], true)
  | (e, none) :: rest =>
    ((runFirstFailure rest).1, e :: (runFirstFailure rest).2.1, (runFirstFailure rest).2.2)
  | (e, some r) :: _ => (r, [e], false)

/-! Characterization lemmas for the primitives: each call equals an explicit
result/state pair, so later proofs compose by rewriting. -/

theorem ite_ne_collapse (r : Int) (s : St) :
    (if r ≠ 0 then (r, s) else ((0 : Int), s)) = (r, s) := by
  split_ifs with h
  · rfl
  · simp only [ne_eq, not_not] at h
    simp [h]

theorem clk_prepare_enable_eq (env : Env) (c : ClkId) (s : St) :
    clk_prepare_enable env c s =
      (env.clkEnableRes c,
       { s with trace := s.trace ++ [Event.clkEnable c],
                clkCnt := fun x =>
                  if env.clkEnableRes c = 0 ∧ x = c then s.clkCnt x + 1 else s.clkCnt x }) := by
  unfold clk_prepare_enable St.log
  by_cases h : env.clkEnableRes c = 0 <;> simp [h]

theorem clk_disable_unprepare_eq (c : ClkId) (s : St) :
    clk_disable_unprepare c s =
      { s with trace := s.trace ++ [Event.clkDisable c],
               clkCnt := fun x => if x = c then s.clkCnt x - 1 else s.clkCnt x } := by
  unfold clk_disable_unprepare St.log
  rfl

theorem writel_eq (v : Nat) (r : Reg) (s : St) :
    writel v r s =
      { s with trace := s.trace ++ [Event.writeCtrl r v],
               regs := fun x => if x = r then v else s.regs x } := by
  unfold writel St.log
  rfl

theorem vcodec_power_control_v4_eq (env : Env) (coreid : Nat) (enable : Bool) (s : St) :
    vcodec_power_control_v4 env coreid enable s =
      ((pollOf env coreid enable).1,
       { s with regs := fun x =>
                  if x = (vcodec_regs coreid).1 then (if enable then 0 else 1) else s.regs x,
                trace := s.trace ++ vcodecTrace env coreid enable }) := by
  cases enable <;>
    simp [vcodec_power_control_v4, pollOf, vcodecTrace, writel_eq, St.log,
      ite_ne_collapse, List.append_assoc] <;>
    exact fun h => h.symm

theorem St.log_trace (s : St) (e : Event) : (s.log e).trace = s.trace ++ [e] := rfl

theorem St.log_clkCnt (s : St) (e : Event) : (s.log e).clkCnt = s.clkCnt := rfl

theorem St.log_regs (s : St) (e : Event) : (s.log e).regs = s.regs := rfl

theorem St.log_pd_dl (s : St) (e : Event) : (s.log e).pd_dl_venus = s.pd_dl_venus := rfl

theorem pollFrom_eq_zero_iff (stat : Nat → Nat) (cond : Nat → Bool) :
    ∀ (fuel i : Nat),
      (pollFrom stat cond i fuel).1 = 0 ↔ ∃ j, i ≤ j ∧ j < i + fuel ∧ cond (stat j) := by
  intro fuel
  induction fuel with
  | zero =>
    intro i
    constructor
    · intro h
      norm_num [pollFrom, ETIMEDOUT] at h
    · rintro ⟨j, h1, h2, _⟩
      omega
  | succ fuel ih =>
    intro i
    by_cases hc : cond (stat i)
    · constructor
      · intro _
        exact ⟨i, le_refl i, by omega, hc⟩
      · intro _
        simp [pollFrom, hc]
    · rw [show pollFrom stat cond i (fuel + 1) = pollFrom stat cond (i + 1) fuel by
        simp [pollFrom, hc]]
      rw [ih (i + 1)]
      constructor
      · rintro ⟨j, h1, h2, h3⟩
        exact ⟨j, by omega, by omega, h3⟩
      · rintro ⟨j, h1, h2, h3⟩
        by_cases hj : j = i
        · subst hj
          exact absurd h3 (by simp [hc])
        · exact ⟨j, by omega, by omega, h3⟩

theorem pollFrom_never (stat : Nat → Nat) (cond : Nat → Bool)
    (h : ∀ j, cond (stat j) = false) :
    ∀ (fuel i : Nat), pollFrom stat cond i fuel = (-ETIMEDOUT, i + fuel) := by
  intro fuel
  induction fuel with
  | zero =>
    intro i
    simp [pollFrom]
  | succ fuel ih =>
    intro i
    rw [show pollFrom stat cond i (fuel + 1) = pollFrom stat cond (i + 1) fuel by
      simp [pollFrom, h i]]
    rw [ih (i + 1)]
    congr 1
    omega

theorem clks_disable_down_eq (k : Nat) : ∀ s : St,
    clks_disable_down k s =
      { s with
        trace := s.trace ++
          (List.range k).reverse.map (fun i => Event.clkDisable (ClkId.shared i)),
        clkCnt := fun c => match c with
          | ClkId.shared t => if t < k then s.clkCnt c - 1 else s.clkCnt c
          | _ => s.clkCnt c } := by
  induction k with
  | zero =>
    intro s
    show s = _
    ext x <;> try rfl
    · cases x <;> simp
    · simp
  | succ k ih =>
    intro s
    show clks_disable_down k (clk_disable_unprepare (ClkId.shared k) s) = _
    rw [clk_disable_unprepare_eq, ih]
    ext x <;> try rfl
    · cases x with
      | shared t =>
        simp only [ClkId.shared.injEq]
        split_ifs <;> simp_all <;> omega
      | _ => simp
    · simp [List.range_succ]

theorem core_clks_enable_from_ok (env : Env) :
    ∀ (m i : Nat) (s : St),
      (∀ j, j < m → env.clkEnableRes (ClkId.shared (i + j)) = 0) →
      core_clks_enable_from env i m s =
        (0, { s with
              trace := s.trace ++
                (List.range m).map (fun j => Event.clkEnable (ClkId.shared (i + j))),
              clkCnt := fun c => match c with
                | ClkId.shared t => if i ≤ t ∧ t < i + m then s.clkCnt c + 1 else s.clkCnt c
                | _ => s.clkCnt c }) := by
  intro m
  induction m with
  | zero =>
    intro i s _
    show ((0 : Int), s) = _
    simp only [Prod.mk.injEq, true_and]
    ext x <;> try rfl
    · cases x with
      | shared t =>
        show s.clkCnt (ClkId.shared t) =
          if i ≤ t ∧ t < i + 0 then s.clkCnt (ClkId.shared t) + 1 else s.clkCnt (ClkId.shared t)
        rw [if_neg (by omega)]
      | core0_clk => rfl
      | core0_bus_clk => rfl
      | core1_clk => rfl
      | core1_bus_clk => rfl
    · simp
  | succ m ih =>
    intro i s hok
    have h0 : env.clkEnableRes (ClkId.shared i) = 0 := by
      have := hok 0 (by omega)
      simpa using this
    show (if (clk_prepare_enable env (ClkId.shared i) s).1 ≠ 0 then
            ((clk_prepare_enable env (ClkId.shared i) s).1,
             clks_disable_down i (clk_prepare_enable env (ClkId.shared i) s).2)
          else core_clks_enable_from env (i + 1) m (clk_prepare_enable env (ClkId.shared i) s).2) = _
    rw [clk_prepare_enable_eq]
    simp only [h0, ne_eq, not_true, if_false]
    norm_num
    rw [ih (i + 1) _ (by
      intro j hj
      have := hok (j + 1) (by omega)
      rw [show i + (j + 1) = i + 1 + j by omega] at this
      exact this)]
    simp only [Prod.mk.injEq, true_and]
    refine St.ext ?_ rfl rfl rfl rfl rfl rfl ?_
    · funext c
      cases c with
      | shared t =>
        simp only [h0, ClkId.shared.injEq, eq_self_iff_true, true_and]
        split_ifs <;> omega
      | core0_clk => simp
      | core0_bus_clk => simp
      | core1_clk => simp
      | core1_bus_clk => simp
    · show (s.trace ++ [Event.clkEnable (ClkId.shared i)]) ++
          (List.range m).map (fun j => Event.clkEnable (ClkId.shared (i + 1 + j))) =
        s.trace ++ (List.range (m + 1)).map (fun j => Event.clkEnable (ClkId.shared (i + j)))
      rw [List.range_succ_eq_map, List.map_cons, List.map_map, List.append_assoc]
      simp only [List.cons_append, List.nil_append, Nat.add_zero, List.singleton_append]
      congr 2
      apply List.map_congr_left
      intro a _
      simp only [Function.comp_apply, Event.clkEnable.injEq, ClkId.shared.injEq]
      omega

theorem range_map_en_shift (m i : Nat) :
    (List.range (m + 1)).map (fun j => Event.clkEnable (ClkId.shared (i + j))) =
      Event.clkEnable (ClkId.shared i) ::
        (List.range m).map (fun j => Event.clkEnable (ClkId.shared (i + 1 + j))) := by
  rw [List.range_succ_eq_map, List.map_cons, List.map_map]
  simp only [Nat.add_zero, List.cons.injEq, true_and]
  apply List.map_congr_left
  intro a _
  simp only [Function.comp_apply, Event.clkEnable.injEq, ClkId.shared.injEq]
  omega

theorem core_clks_enable_from_fail (env : Env) :
    ∀ (k m i : Nat) (s : St), k < m →
      (∀ j, j < k → env.clkEnableRes (ClkId.shared (i + j)) = 0) →
      env.clkEnableRes (ClkId.shared (i + k)) ≠ 0 →
      core_clks_enable_from env i m s =
        (env.clkEnableRes (ClkId.shared (i + k)),
         { s with
           trace := s.trace ++
             (List.range (k + 1)).map (fun j => Event.clkEnable (ClkId.shared (i + j))) ++
             (List.range (i + k)).reverse.map (fun t => Event.clkDisable (ClkId.shared t)),
           clkCnt := fun c => match c with
             | ClkId.shared t => if t < i then s.clkCnt c - 1 else s.clkCnt c
             | _ => s.clkCnt c }) := by
  intro k
  induction k with
  | zero =>
    intro m i s hkm _ hfail
    cases m with
    | zero => omega
    | succ m2 =>
      have hfail0 : env.clkEnableRes (ClkId.shared i) ≠ 0 := by simpa using hfail
      show (if (clk_prepare_enable env (ClkId.shared i) s).1 ≠ 0 then
              ((clk_prepare_enable env (ClkId.shared i) s).1,
               clks_disable_down i (clk_prepare_enable env (ClkId.shared i) s).2)
            else core_clks_enable_from env (i + 1) m2 (clk_prepare_enable env (ClkId.shared i) s).2) = _
      rw [clk_prepare_enable_eq]
      simp only [ne_eq, hfail0, not_false_iff, if_true]
      rw [clks_disable_down_eq]
      simp only [Prod.mk.injEq, Nat.add_zero]
      refine ⟨trivial, ?_⟩
      refine St.ext ?_ rfl rfl rfl rfl rfl rfl ?_
      · funext c
        cases c with
        | shared t =>
          simp only [hfail0, false_and, if_false]
        | core0_clk => simp
        | core0_bus_clk => simp
        | core1_clk => simp
        | core1_bus_clk => simp
      · show (s.trace ++ [Event.clkEnable (ClkId.shared i)]) ++
            (List.range i).reverse.map (fun t => Event.clkDisable (ClkId.shared t)) =
          s.trace ++ (List.range 1).map (fun j => Event.clkEnable (ClkId.shared (i + j))) ++
            (List.range i).reverse.map (fun t => Event.clkDisable (ClkId.shared t))
        simp [show List.range 1 = [0] from rfl]
  | succ k ih =>
    intro m i s hkm hpre hfail
    cases m with
    | zero => omega
    | succ m2 =>
      have h0 : env.clkEnableRes (ClkId.shared i) = 0 := by
        have := hpre 0 (by omega)
        simpa using this
      show (if (clk_prepare_enable env (ClkId.shared i) s).1 ≠ 0 then
              ((clk_prepare_enable env (ClkId.shared i) s).1,
               clks_disable_down i (clk_prepare_enable env (ClkId.shared i) s).2)
            else core_clks_enable_from env (i + 1) m2 (clk_prepare_enable env (ClkId.shared i) s).2) = _
      rw [clk_prepare_enable_eq]
      simp only [h0, ne_eq, eq_self_iff_true, not_true, if_false]
      rw [ih m2 (i + 1) _ (by omega)
        (by
          intro j hj
          have := hpre (j + 1) (by omega)
          rw [show i + (j + 1) = i + 1 + j by omega] at this
          exact this)
        (by
          rw [show i + 1 + k = i + (k + 1) by omega]
          exact hfail)]
      simp only [Prod.mk.injEq]
      constructor
      · rw [show i + 1 + k = i + (k + 1) by omega]
      · refine St.ext ?_ rfl rfl rfl rfl rfl rfl ?_
        · funext c
          cases c with
          | shared t =>
            simp only [h0, ClkId.shared.injEq, eq_self_iff_true, true_and]
            split_ifs <;> omega
          | core0_clk => simp
          | core0_bus_clk => simp
          | core1_clk => simp
          | core1_bus_clk => simp
        · show (s.trace ++ [Event.clkEnable (ClkId.shared i)]) ++
              (List.range (k + 1)).map (fun j => Event.clkEnable (ClkId.shared (i + 1 + j))) ++
              (List.range (i + 1 + k)).reverse.map (fun t => Event.clkDisable (ClkId.shared t)) =
            s.trace ++ (List.range (k + 1 + 1)).map (fun j => Event.clkEnable (ClkId.shared (i + j))) ++
              (List.range (i + (k + 1))).reverse.map (fun t => Event.clkDisable (ClkId.shared t))
          rw [range_map_en_shift (k + 1) i]
          rw [show i + (k + 1) = i + 1 + k by omega]
          simp [List.append_assoc]

/-- C1: for every clock set and index k, if enabling the clock at index k
fails during core_clks_enable, exactly the already-enabled clocks [0,k) are
disabled, in strict reverse order, before the error is returned, and the net
clock state is unchanged (all rolled back); if every enable succeeds, all
clocks are enabled in insertion order and the operation returns 0. -/
theorem claim_C1_core_clks_enable_atomic (env : Env) (res : VenusResources) (s : St) :
    ((∀ i, i < res.clks.length → env.clkEnableRes (ClkId.shared i) = 0) →
      (core_clks_enable env res s).1 = 0 ∧
      (core_clks_enable env res s).2.trace =
        s.trace ++ (List.range res.clks.length).map (fun i => Event.clkEnable (ClkId.shared i)) ∧
      (∀ i, i < res.clks.length →
        (core_clks_enable env res s).2.clkCnt (ClkId.shared i) = s.clkCnt (ClkId.shared i) + 1)) ∧
    (∀ k, k < res.clks.length →
      (∀ i, i < k → env.clkEnableRes (ClkId.shared i) = 0) →
      env.clkEnableRes (ClkId.shared k) ≠ 0 →
      (core_clks_enable env res s).1 = env.clkEnableRes (ClkId.shared k) ∧
      (core_clks_enable env res s).2.trace =
        s.trace ++ (List.range (k + 1)).map (fun i => Event.clkEnable (ClkId.shared i)) ++
          (List.range k).reverse.map (fun i => Event.clkDisable (ClkId.shared i)) ∧
      (∀ c, (core_clks_enable env res s).2.clkCnt c = s.clkCnt c)) := by
  constructor
  · intro hok
    rw [core_clks_enable,
      core_clks_enable_from_ok env res.clks.length 0 s
        (by intro j hj; simpa using hok j hj)]
    refine ⟨rfl, by simp, ?_⟩
    intro i hi
    show (if 0 ≤ i ∧ i < 0 + res.clks.length then s.clkCnt (ClkId.shared i) + 1
          else s.clkCnt (ClkId.shared i)) = s.clkCnt (ClkId.shared i) + 1
    rw [if_pos ⟨by omega, by omega⟩]
  · intro k hk hpre hfail
    rw [core_clks_enable,
      core_clks_enable_from_fail env k res.clks.length 0 s hk
        (by intro j hj; simpa using hpre j hj) (by simpa using hfail)]
    refine ⟨by simp, by simp, ?_⟩
    intro c
    cases c with
    | shared t =>
      show (if t < 0 then s.clkCnt (ClkId.shared t) - 1 else s.clkCnt (ClkId.shared t)) =
        s.clkCnt (ClkId.shared t)
      rw [if_neg (by omega)]
    | core0_clk => rfl
    | core0_bus_clk => rfl
    | core1_clk => rfl
    | core1_bus_clk => rfl

theorem claim_C1_witness :
    (core_clks_enable envC1 res0 initSt).1 = -12 ∧
    (core_clks_enable envC1 res0 initSt).2.trace =
      [Event.clkEnable (ClkId.shared 0), Event.clkEnable (ClkId.shared 1),
       Event.clkDisable (ClkId.shared 0)] ∧
    (core_clks_enable envC1 res0 initSt).2.clkCnt (ClkId.shared 0) = 0 := by
  have h := (claim_C1_core_clks_enable_atomic envC1 res0 initSt).2 1
    (by norm_num [res0])
    (by
      intro i hi
      have : i = 0 := by omega
      subst this
      rfl)
    (by decide)
  refine ⟨?_, ?_, ?_⟩
  · rw [h.1]
    decide
  · rw [h.2.1]
    decide
  · rw [h.2.2 (ClkId.shared 0)]
    decide

/-- C4: every unrecognized hardware-generation identifier selects exactly the
generation-1 strategy table (the same operations object), not an error and
not a null pointer. -/
theorem claim_C4_unknown_version_v1_fallback (n : Nat) :
    venus_get_pm_ops (hfi_version.unknown n) = some venus_pm_ops_v1 ∧
    venus_get_pm_ops (hfi_version.unknown n) ≠ none := by
  exact ⟨rfl, by simp [venus_get_pm_ops]⟩

/-- C7: for the V1 strategy and any starting clock state, a successful
power(on) (all shared-clock enables succeed) immediately followed by
power(off) restores every clock's enable count to its pre-call value. -/
theorem claim_C7_v1_on_off_roundtrip (env : Env) (res : VenusResources) (s : St)
    (hok : ∀ i, i < res.clks.length → env.clkEnableRes (ClkId.shared i) = 0) :
    ∀ c, (core_power_v1 env res POWER_OFF
            (core_power_v1 env res POWER_ON s).2).2.clkCnt c = s.clkCnt c := by
  intro c
  have hON : core_power_v1 env res POWER_ON s = core_clks_enable env res s := by
    simp [core_power_v1]
  have hOFF : ∀ s2, core_power_v1 env res POWER_OFF s2 = (0, core_clks_disable res s2) := by
    intro s2
    simp [core_power_v1, POWER_OFF, POWER_ON]
  rw [hON, hOFF, core_clks_enable,
    core_clks_enable_from_ok env res.clks.length 0 s
      (by intro j hj; simpa using hok j hj)]
  show (core_clks_disable res _).clkCnt c = s.clkCnt c
  rw [core_clks_disable, clks_disable_down_eq]
  cases c with
  | shared t =>
    show (if t < res.clks.length then
            (if 0 ≤ t ∧ t < 0 + res.clks.length then s.clkCnt (ClkId.shared t) + 1
             else s.clkCnt (ClkId.shared t)) - 1
          else
            (if 0 ≤ t ∧ t < 0 + res.clks.length then s.clkCnt (ClkId.shared t) + 1
             else s.clkCnt (ClkId.shared t))) = s.clkCnt (ClkId.shared t)
    split_ifs <;> omega
  | core0_clk => rfl
  | core0_bus_clk => rfl
  | core1_clk => rfl
  | core1_bus_clk => rfl

theorem claim_C7_witness :
    (core_power_v1 env0 res0 POWER_OFF
        (core_power_v1 env0 res0 POWER_ON initSt).2).2.clkCnt (ClkId.shared 0) =
      initSt.clkCnt (ClkId.shared 0) :=
  claim_C7_v1_on_off_roundtrip env0 res0 initSt (fun _ _ => rfl) (ClkId.shared 0)

/-- C9: in the V3 session power paths, power-on always performs the trailing
de-assert write (the session control register ends at 1) even when the core
clock enable fails, the clock-enable result is returned to the caller, and
the power-off path always returns 0 (for both decoder and encoder). -/
theorem claim_C9_v3_session_power (env : Env) (res : VenusResources) (s : St) :
    ((vdec_power_v3 env res POWER_ON s).1 = env.clkEnableRes ClkId.core0_clk ∧
     (vdec_power_v3 env res POWER_ON s).2.regs Reg.vdec_ctrl = 1 ∧
     (vdec_power_v3 env res POWER_ON s).2.trace =
       s.trace ++ [Event.writeCtrl Reg.vdec_ctrl 0, Event.clkEnable ClkId.core0_clk,
         Event.writeCtrl Reg.vdec_ctrl 1]) ∧
    ((vdec_power_v3 env res POWER_OFF s).1 = 0 ∧
     (vdec_power_v3 env res POWER_OFF s).2.regs Reg.vdec_ctrl = 1) ∧
    ((venc_power_v3 env res POWER_ON s).1 = env.clkEnableRes ClkId.core1_clk ∧
     (venc_power_v3 env res POWER_ON s).2.regs Reg.venc_ctrl = 1 ∧
     (venc_power_v3 env res POWER_ON s).2.trace =
       s.trace ++ [Event.writeCtrl Reg.venc_ctrl 0, Event.clkEnable ClkId.core1_clk,
         Event.writeCtrl Reg.venc_ctrl 1]) ∧
    ((venc_power_v3 env res POWER_OFF s).1 = 0 ∧
     (venc_power_v3 env res POWER_OFF s).2.regs Reg.venc_ctrl = 1) := by
  refine ⟨⟨?_, ?_, ?_⟩, ⟨?_, ?_⟩, ⟨?_, ?_, ?_⟩, ⟨?_, ?_⟩⟩ <;>
    simp [vdec_power_v3, venc_power_v3, vcodec_power_control_v3, POWER_ON, POWER_OFF,
      VIDC_SESSION_TYPE_DEC, VIDC_SESSION_TYPE_ENC, writel_eq, clk_prepare_enable_eq,
      clk_disable_unprepare_eq, List.append_assoc]

/-- C2: V4 power(off) always disables the shared clock set, in reverse order,
after the per-core power-off, even when the per-core power-off failed, and it
returns the per-core power-off's result (the clock disable contributes no
error value). -/
theorem claim_C2_v4_poweroff_teardown (env : Env) (res : VenusResources) (s : St) :
    (core_power_v4 env res POWER_OFF s).1 =
      (poweroff_by_core_id env (VIDC_CORE_ID_1 ||| VIDC_CORE_ID_2) s).1 ∧
    (core_power_v4 env res POWER_OFF s).2.trace =
      (poweroff_by_core_id env (VIDC_CORE_ID_1 ||| VIDC_CORE_ID_2) s).2.trace ++
        (List.range res.clks.length).reverse.map (fun i => Event.clkDisable (ClkId.shared i)) := by
  have hoff : core_power_v4 env res POWER_OFF s =
      ((poweroff_by_core_id env (VIDC_CORE_ID_1 ||| VIDC_CORE_ID_2) s).1,
       core_clks_disable res (poweroff_by_core_id env (VIDC_CORE_ID_1 ||| VIDC_CORE_ID_2) s).2) := by
    simp [core_power_v4, POWER_OFF, POWER_ON]
  rw [hoff]
  refine ⟨rfl, ?_⟩
  rw [core_clks_disable, clks_disable_down_eq]

theorem St.log_pd_core (s : St) (e : Event) : (s.log e).pd_core = s.pd_core := rfl

theorem St.log_pd_core0 (s : St) (e : Event) : (s.log e).pd_core0 = s.pd_core0 := rfl

theorem St.log_pd_core1 (s : St) (e : Event) : (s.log e).pd_core1 = s.pd_core1 := rfl

/-- C6: the v4 handshake writes the control bit and then polls the status
register (1 us interval, 100 us timeout): it succeeds if and only if the
status bit reaches the requested value within the 100 configured polls, and
for a status source that never changes it returns -ETIMEDOUT after exactly
timeout/interval = 100 polls. -/
theorem claim_C6_v4_handshake_poll (env : Env) (coreid : Nat) (enable : Bool) (s : St) :
    (vcodec_power_control_v4 env coreid enable s).2.trace =
      s.trace ++ [Event.writeCtrl (vcodec_regs coreid).1 (if enable then 0 else 1),
        Event.pollStat (vcodec_regs coreid).2 (pollOf env coreid enable).2] ∧
    ((vcodec_power_control_v4 env coreid enable s).1 = 0 ↔
      ∃ i, i < 100 ∧
        (if enable then (env.stat (vcodec_regs coreid).2 (if enable then 0 else 1) i).testBit 1
         else !((env.stat (vcodec_regs coreid).2 (if enable then 0 else 1) i).testBit 1)) = true) ∧
    ((∀ i, (if enable then (env.stat (vcodec_regs coreid).2 (if enable then 0 else 1) i).testBit 1
            else !((env.stat (vcodec_regs coreid).2 (if enable then 0 else 1) i).testBit 1)) = false) →
      (vcodec_power_control_v4 env coreid enable s).1 = -ETIMEDOUT ∧
      (pollOf env coreid enable).2 = 100) := by
  refine ⟨?_, ?_, ?_⟩
  · rw [vcodec_power_control_v4_eq]
    rfl
  · rw [vcodec_power_control_v4_eq]
    show (pollOf env coreid enable).1 = 0 ↔ _
    rw [pollOf, readl_poll_timeout, show (100 : Nat) / 1 = 100 from rfl,
      pollFrom_eq_zero_iff]
    constructor
    · rintro ⟨j, _, hj, hc⟩
      exact ⟨j, by omega, hc⟩
    · rintro ⟨j, hj, hc⟩
      exact ⟨j, by omega, by omega, hc⟩
  · intro hnever
    have hp := pollFrom_never (env.stat (vcodec_regs coreid).2 (if enable then 0 else 1))
      (fun v => if enable then v.testBit 1 else !(v.testBit 1)) hnever 100 0
    constructor
    · rw [vcodec_power_control_v4_eq]
      show (pollOf env coreid enable).1 = _
      rw [pollOf, readl_poll_timeout, show (100 : Nat) / 1 = 100 from rfl, hp]
    · rw [pollOf, readl_poll_timeout, show (100 : Nat) / 1 = 100 from rfl, hp]

theorem claim_C6_witness :
    (vcodec_power_control_v4 envStat0 VIDC_CORE_ID_1 true initSt).1 = -ETIMEDOUT ∧
    (pollOf envStat0 VIDC_CORE_ID_1 true).2 = 100 :=
  (claim_C6_v4_handshake_poll envStat0 VIDC_CORE_ID_1 true initSt).2.2
    (fun i => by simp [envStat0, env0, Nat.zero_testBit])

/-- C10: V4 putPm tears down only what was created: the device link is
deleted only when the link pointer is non-null, and each of the three power
domains is detached only when its handle is neither null nor an error
pointer; everything skipped contributes no external call. -/
theorem claim_C10_v4_put_conditional_teardown (env : Env) (res : VenusResources) (s : St) :
    (core_put_pm_v4 env res s).trace =
      s.trace ++ (if s.pd_dl_venus.isSome then [Event.linkDel] else []) ++
        (if IS_ERR_OR_NULL s.pd_core then [] else [Event.pdDetach PdId.pd_core]) ++
        (if IS_ERR_OR_NULL s.pd_core0 then [] else [Event.pdDetach PdId.pd_core0]) ++
        (if IS_ERR_OR_NULL s.pd_core1 then [] else [Event.pdDetach PdId.pd_core1]) := by
  unfold core_put_pm_v4
  by_cases h1 : s.pd_dl_venus.isSome <;>
    by_cases h2 : IS_ERR_OR_NULL s.pd_core <;>
      by_cases h3 : IS_ERR_OR_NULL s.pd_core0 <;>
        by_cases h4 : IS_ERR_OR_NULL s.pd_core1 <;>
          simp [h1, h2, h3, h4, St.log, List.append_assoc]

/-- C3: per-core power-off order is assert handshake, disable core-bus
clock, disable core clock, de-assert handshake, release power domain; an
assert failure aborts immediately (no further calls), a de-assert failure is
not fatal (the domain release still happens, with no hypothesis on the
de-assert result), a negative CORE_1 domain-release aborts before any CORE_2
operation, and otherwise CORE_2 runs the same ordered sequence. -/
theorem claim_C3_poweroff_sequencing (env : Env) (s : St) :
    ((pollOf env VIDC_CORE_ID_1 true).1 ≠ 0 →
      (poweroff_by_core_id env (VIDC_CORE_ID_1 ||| VIDC_CORE_ID_2) s).1 =
        (pollOf env VIDC_CORE_ID_1 true).1 ∧
      (poweroff_by_core_id env (VIDC_CORE_ID_1 ||| VIDC_CORE_ID_2) s).2.trace =
        s.trace ++ vcodecTrace env VIDC_CORE_ID_1 true) ∧
    ((pollOf env VIDC_CORE_ID_1 true).1 = 0 → env.pmPutRes PdId.pd_core0 < 0 →
      (poweroff_by_core_id env (VIDC_CORE_ID_1 ||| VIDC_CORE_ID_2) s).1 =
        env.pmPutRes PdId.pd_core0 ∧
      (poweroff_by_core_id env (VIDC_CORE_ID_1 ||| VIDC_CORE_ID_2) s).2.trace =
        s.trace ++ vcodecTrace env VIDC_CORE_ID_1 true ++
          [Event.clkDisable ClkId.core0_bus_clk, Event.clkDisable ClkId.core0_clk] ++
          vcodecTrace env VIDC_CORE_ID_1 false ++ [Event.pmPut PdId.pd_core0]) ∧
    ((pollOf env VIDC_CORE_ID_1 true).1 = 0 → ¬ env.pmPutRes PdId.pd_core0 < 0 →
      (pollOf env VIDC_CORE_ID_2 true).1 = 0 →
      (poweroff_by_core_id env (VIDC_CORE_ID_1 ||| VIDC_CORE_ID_2) s).1 =
        env.pmPutRes PdId.pd_core1 ∧
      (poweroff_by_core_id env (VIDC_CORE_ID_1 ||| VIDC_CORE_ID_2) s).2.trace =
        s.trace ++ vcodecTrace env VIDC_CORE_ID_1 true ++
          [Event.clkDisable ClkId.core0_bus_clk, Event.clkDisable ClkId.core0_clk] ++
          vcodecTrace env VIDC_CORE_ID_1 false ++ [Event.pmPut PdId.pd_core0] ++
          vcodecTrace env VIDC_CORE_ID_2 true ++
          [Event.clkDisable ClkId.core1_bus_clk, Event.clkDisable ClkId.core1_clk] ++
          vcodecTrace env VIDC_CORE_ID_2 false ++ [Event.pmPut PdId.pd_core1]) := by
  have hm1 : (VIDC_CORE_ID_1 ||| VIDC_CORE_ID_2) &&& VIDC_CORE_ID_1 ≠ 0 := by decide
  have hm2 : (VIDC_CORE_ID_1 ||| VIDC_CORE_ID_2) &&& VIDC_CORE_ID_2 ≠ 0 := by decide
  refine ⟨?_, ?_, ?_⟩
  · intro h
    simp [poweroff_by_core_id, hm1, vcodec_power_control_v4_eq, h]
  · intro h hput
    simp [poweroff_by_core_id, hm1, vcodec_power_control_v4_eq, h,
      clk_disable_unprepare_eq, pm_runtime_put_sync, St.log, hput,
      List.append_assoc]
  · intro h hput h2
    simp [poweroff_by_core_id, poweroff_core2, hm1, hm2, vcodec_power_control_v4_eq, h, h2,
      clk_disable_unprepare_eq, pm_runtime_put_sync, St.log, hput,
      List.append_assoc]

theorem claim_C3_witness :
    (poweroff_by_core_id envPut0 (VIDC_CORE_ID_1 ||| VIDC_CORE_ID_2) initSt).1 = -5 ∧
    (poweroff_by_core_id envPut0 (VIDC_CORE_ID_1 ||| VIDC_CORE_ID_2) initSt).2.trace =
      [Event.writeCtrl Reg.c0_ctrl 0, Event.pollStat Reg.c0_stat 1,
       Event.clkDisable ClkId.core0_bus_clk, Event.clkDisable ClkId.core0_clk,
       Event.writeCtrl Reg.c0_ctrl 1, Event.pollStat Reg.c0_stat 1,
       Event.pmPut PdId.pd_core0] := by
  have h := (claim_C3_poweroff_sequencing envPut0 initSt).2.1 (by decide) (by decide)
  refine ⟨?_, ?_⟩
  · rw [h.1]
    decide
  · rw [h.2]
    decide

/-- C5: within one power-on call with both cores requested and all calls
succeeding, each core's steps run strictly in the order acquire power
domain, assert handshake, enable core clock, enable core-bus clock,
de-assert handshake, and CORE_1's full sequence completes before any CORE_2
operation appears in the call trace. -/
theorem claim_C5_poweron_ordering (env : Env) (s : St)
    (h1 : ¬ env.pmGetRes PdId.pd_core0 < 0)
    (h2 : (pollOf env VIDC_CORE_ID_1 true).1 = 0)
    (h3 : env.clkEnableRes ClkId.core0_clk = 0)
    (h4 : env.clkEnableRes ClkId.core0_bus_clk = 0)
    (h5 : ¬ (pollOf env VIDC_CORE_ID_1 false).1 < 0)
    (h6 : ¬ env.pmGetRes PdId.pd_core1 < 0)
    (h7 : (pollOf env VIDC_CORE_ID_2 true).1 = 0)
    (h8 : env.clkEnableRes ClkId.core1_clk = 0)
    (h9 : env.clkEnableRes ClkId.core1_bus_clk = 0) :
    (poweron_by_core_id env (VIDC_CORE_ID_1 ||| VIDC_CORE_ID_2) s).2.trace =
      s.trace ++ [Event.pmGet PdId.pd_core0] ++ vcodecTrace env VIDC_CORE_ID_1 true ++
        [Event.clkEnable ClkId.core0_clk, Event.clkEnable ClkId.core0_bus_clk] ++
        vcodecTrace env VIDC_CORE_ID_1 false ++
        [Event.pmGet PdId.pd_core1] ++ vcodecTrace env VIDC_CORE_ID_2 true ++
        [Event.clkEnable ClkId.core1_clk, Event.clkEnable ClkId.core1_bus_clk] ++
        vcodecTrace env VIDC_CORE_ID_2 false := by
  have hm1 : (VIDC_CORE_ID_1 ||| VIDC_CORE_ID_2) &&& VIDC_CORE_ID_1 ≠ 0 := by decide
  have hm2 : (VIDC_CORE_ID_1 ||| VIDC_CORE_ID_2) &&& VIDC_CORE_ID_2 ≠ 0 := by decide
  simp [poweron_by_core_id, poweron_core2, hm1, hm2, vcodec_power_control_v4_eq,
    pm_runtime_get_sync, clk_prepare_enable_eq, St.log, h1, h2, h3, h4, h5, h6, h7, h8, h9,
    List.append_assoc]

theorem claim_C5_witness :
    (poweron_by_core_id env0 (VIDC_CORE_ID_1 ||| VIDC_CORE_ID_2) initSt).2.trace =
      [Event.pmGet PdId.pd_core0,
       Event.writeCtrl Reg.c0_ctrl 0, Event.pollStat Reg.c0_stat 1,
       Event.clkEnable ClkId.core0_clk, Event.clkEnable ClkId.core0_bus_clk,
       Event.writeCtrl Reg.c0_ctrl 1, Event.pollStat Reg.c0_stat 1,
       Event.pmGet PdId.pd_core1,
       Event.writeCtrl Reg.c1_ctrl 0, Event.pollStat Reg.c1_stat 1,
       Event.clkEnable ClkId.core1_clk, Event.clkEnable ClkId.core1_bus_clk,
       Event.writeCtrl Reg.c1_ctrl 1, Event.pollStat Reg.c1_stat 1] := by
  rw [claim_C5_poweron_ordering env0 initSt (by decide) (by decide) (by decide) (by decide)
    (by decide) (by decide) (by decide) (by decide) (by decide)]
  decide

theorem runFirstFailure_append (A B : List (Event × Option Int)) :
    runFirstFailure (A ++ B) =
      if (runFirstFailure A).2.2 = true then
        ((runFirstFailure B).1, (runFirstFailure A).2.1 ++ (runFirstFailure B).2.1,
         (runFirstFailure B).2.2)
      else runFirstFailure A := by
  induction A with
  | nil => simp [runFirstFailure]
  | cons p rest ih =>
    obtain ⟨e, r⟩ := p
    cases r with
    | none =>
      by_cases hf : (runFirstFailure rest).2.2 = true <;>
        simp [runFirstFailure, ih, hf]
    | some v => simp [runFirstFailure]

theorem core_clks_get_from_eq (env : Env)
    (hwf : ∀ nm e, env.clkGet nm = Handle.err e → e ≠ 0) :
    ∀ (names : List String) (i : Nat) (s : St),
      (core_clks_get_from env names i s).1 =
        (runFirstFailure (names.map fun nm => (Event.clkGet nm, stepOut (env.clkGet nm)))).1 ∧
      (core_clks_get_from env names i s).2.trace =
        s.trace ++
          (runFirstFailure (names.map fun nm => (Event.clkGet nm, stepOut (env.clkGet nm)))).2.1 ∧
      (core_clks_get_from env names i s).2.pd_dl_venus = s.pd_dl_venus ∧
      ((core_clks_get_from env names i s).1 = 0 ↔
        (runFirstFailure (names.map fun nm => (Event.clkGet nm, stepOut (env.clkGet nm)))).2.2 = true) := by
  intro names
  induction names with
  | nil =>
    intro i s
    refine ⟨rfl, by simp [runFirstFailure, core_clks_get_from], rfl, by simp [runFirstFailure, core_clks_get_from]⟩
  | cons nm rest ih =>
    intro i s
    by_cases hh : IS_ERR (env.clkGet nm) = true
    · rcases hcase : env.clkGet nm with _ | e | _
      · rw [hcase] at hh
        exact absurd hh (by simp [IS_ERR])
      · have hne : e ≠ 0 := hwf nm e hcase
        refine ⟨?_, ?_, ?_, ?_⟩ <;>
          simp [core_clks_get_from, devm_clk_get, St.log, runFirstFailure, stepOut,
            hcase, IS_ERR, PTR_ERR, hne]
      · rw [hcase] at hh
        exact absurd hh (by simp [IS_ERR])
    · have hstep : stepOut (env.clkGet nm) = none := by
        simp [stepOut, hh]
      have hrec := ih (i + 1)
        { s with clkHandle := fun x => if x = ClkId.shared i then env.clkGet nm else s.clkHandle x,
                 trace := s.trace ++ [Event.clkGet nm] }
      have hcode : core_clks_get_from env (nm :: rest) i s =
          core_clks_get_from env rest (i + 1)
            { s with clkHandle := fun x => if x = ClkId.shared i then env.clkGet nm else s.clkHandle x,
                     trace := s.trace ++ [Event.clkGet nm] } := by
        simp [core_clks_get_from, devm_clk_get, St.log, hh]
      have hRFF : runFirstFailure ((nm :: rest).map fun x => (Event.clkGet x, stepOut (env.clkGet x))) =
          ((runFirstFailure (rest.map fun x => (Event.clkGet x, stepOut (env.clkGet x)))).1,
           Event.clkGet nm :: (runFirstFailure (rest.map fun x => (Event.clkGet x, stepOut (env.clkGet x)))).2.1,
           (runFirstFailure (rest.map fun x => (Event.clkGet x, stepOut (env.clkGet x)))).2.2) := by
        rw [List.map_cons, hstep]
        simp [runFirstFailure]
      rw [hcode, hRFF]
      refine ⟨hrec.1, ?_, hrec.2.2.1, hrec.2.2.2⟩
      rw [hrec.2.1]
      simp [List.append_assoc]

theorem runFirstFailure_flag_result (L : List (Event × Option Int)) :
    (runFirstFailure L).2.2 = true → (runFirstFailure L).1 = 0 := by
  induction L with
  | nil => intro _; rfl
  | cons p rest ih =>
    obtain ⟨e, r⟩ := p
    cases r with
    | none =>
      intro h
      simp only [runFirstFailure] at h ⊢
      exact ih h
    | some v =>
      intro h
      simp [runFirstFailure] at h

theorem core_get_pm_v4_nil_clks (env : Env) (s : St) (hinit : s.pd_dl_venus = none) :
    (core_get_pm_v4 env ⟨[]⟩ s).1 = (runFirstFailure (v4StepList env ⟨[]⟩)).1 ∧
    (core_get_pm_v4 env ⟨[]⟩ s).2.trace = s.trace ++ (runFirstFailure (v4StepList env ⟨[]⟩)).2.1 ∧
    (core_get_pm_v4 env ⟨[]⟩ s).2.pd_dl_venus =
      (if (runFirstFailure (v4StepList env ⟨[]⟩)).2.2 = true then some () else none) := by
  by_cases h1 : IS_ERR (env.clkGet "vcodec0_core") = true
  · refine ⟨?_, ?_, ?_⟩ <;>
      simp [core_get_pm_v4, core_clks_get, core_clks_get_from, v4StepList, runFirstFailure,
        stepOut, devm_clk_get, dev_pm_domain_attach_by_name, device_link_add, St.log,
        hinit, h1, List.append_assoc]
  · by_cases h2 : IS_ERR (env.clkGet "vcodec0_bus") = true
    · refine ⟨?_, ?_, ?_⟩ <;>
        simp [core_get_pm_v4, core_clks_get, core_clks_get_from, v4StepList, runFirstFailure,
          stepOut, devm_clk_get, dev_pm_domain_attach_by_name, device_link_add, St.log,
          hinit, h1, h2, List.append_assoc]
    · by_cases h3 : IS_ERR (env.clkGet "vcodec1_core") = true
      · refine ⟨?_, ?_, ?_⟩ <;>
          simp [core_get_pm_v4, core_clks_get, core_clks_get_from, v4StepList, runFirstFailure,
            stepOut, devm_clk_get, dev_pm_domain_attach_by_name, device_link_add, St.log,
            hinit, h1, h2, h3, List.append_assoc]
      · by_cases h4 : IS_ERR (env.clkGet "vcodec1_bus") = true
        · refine ⟨?_, ?_, ?_⟩ <;>
            simp [core_get_pm_v4, core_clks_get, core_clks_get_from, v4StepList, runFirstFailure,
              stepOut, devm_clk_get, dev_pm_domain_attach_by_name, device_link_add, St.log,
              hinit, h1, h2, h3, h4, List.append_assoc]
        · by_cases h5 : IS_ERR (env.pdAttach "venus") = true
          · refine ⟨?_, ?_, ?_⟩ <;>
              simp [core_get_pm_v4, core_clks_get, core_clks_get_from, v4StepList, runFirstFailure,
                stepOut, devm_clk_get, dev_pm_domain_attach_by_name, device_link_add, St.log,
                hinit, h1, h2, h3, h4, h5, List.append_assoc]
          · by_cases h6 : IS_ERR (env.pdAttach "vcodec0") = true
            · refine ⟨?_, ?_, ?_⟩ <;>
                simp [core_get_pm_v4, core_clks_get, core_clks_get_from, v4StepList, runFirstFailure,
                  stepOut, devm_clk_get, dev_pm_domain_attach_by_name, device_link_add, St.log,
                  hinit, h1, h2, h3, h4, h5, h6, List.append_assoc]
            · by_cases h7 : IS_ERR (env.pdAttach "vcodec1") = true
              · refine ⟨?_, ?_, ?_⟩ <;>
                  simp [core_get_pm_v4, core_clks_get, core_clks_get_from, v4StepList, runFirstFailure,
                    stepOut, devm_clk_get, dev_pm_domain_attach_by_name, device_link_add, St.log,
                    hinit, h1, h2, h3, h4, h5, h6, h7, List.append_assoc]
              · by_cases hl : env.linkAdd = true
                · refine ⟨?_, ?_, ?_⟩ <;>
                    simp [core_get_pm_v4, core_clks_get, core_clks_get_from, v4StepList, runFirstFailure,
                      stepOut, devm_clk_get, dev_pm_domain_attach_by_name, device_link_add, St.log,
                      hinit, h1, h2, h3, h4, h5, h6, h7, hl, List.append_assoc]
                · refine ⟨?_, ?_, ?_⟩ <;>
                    simp [core_get_pm_v4, core_clks_get, core_clks_get_from, v4StepList, runFirstFailure,
                      stepOut, devm_clk_get, dev_pm_domain_attach_by_name, device_link_add, St.log,
                      hinit, h1, h2, h3, h4, h5, h6, h7, hl, List.append_assoc]

/-- C8: V4 getPm resolves its resources in the fixed order shared clock set,
per-core clock pairs, shared power domain, per-core power domains, device
link; it returns the specific failure of the first resolution step that
fails, performing no later call, and when any step before the link fails no
device link is established. -/
theorem claim_C8_v4_get_first_failure (env : Env) (res : VenusResources) (s : St)
    (hinit : s.pd_dl_venus = none)
    (hwfc : ∀ nm e, env.clkGet nm = Handle.err e → e ≠ 0) :
    (core_get_pm_v4 env res s).1 = (runFirstFailure (v4StepList env res)).1 ∧
    (core_get_pm_v4 env res s).2.trace = s.trace ++ (runFirstFailure (v4StepList env res)).2.1 ∧
    (core_get_pm_v4 env res s).2.pd_dl_venus =
      (if (runFirstFailure (v4StepList env res)).2.2 = true then some () else none) := by
  have hA := core_clks_get_from_eq env hwfc res.clks 0 s
  have hsplit : v4StepList env res =
      (res.clks.map fun nm => (Event.clkGet nm, stepOut (env.clkGet nm))) ++
        v4StepList env ⟨[]⟩ := by
    simp [v4StepList]
  by_cases hflag : (runFirstFailure
      (res.clks.map fun nm => (Event.clkGet nm, stepOut (env.clkGet nm)))).2.2 = true
  · have hok : (core_clks_get_from env res.clks 0 s).1 = 0 := hA.2.2.2.mpr hflag
    have hbridge : core_get_pm_v4 env res s =
        core_get_pm_v4 env ⟨[]⟩ (core_clks_get_from env res.clks 0 s).2 := by
      simp only [core_get_pm_v4, core_clks_get]
      simp [core_clks_get_from, hok]
    have hnil := core_get_pm_v4_nil_clks env (core_clks_get_from env res.clks 0 s).2
      (by rw [hA.2.2.1]; exact hinit)
    rw [hbridge, hsplit, runFirstFailure_append, if_pos hflag]
    refine ⟨?_, ?_, ?_⟩
    · rw [hnil.1]
    · rw [hnil.2.1, hA.2.1]
      simp [List.append_assoc]
    · rw [hnil.2.2]
  · have hfail : (core_clks_get_from env res.clks 0 s).1 ≠ 0 := by
      intro h0
      exact hflag (hA.2.2.2.mp h0)
    have hbridge : core_get_pm_v4 env res s = core_clks_get_from env res.clks 0 s := by
      simp only [core_get_pm_v4, core_clks_get]
      rw [if_pos hfail]
    rw [hbridge, hsplit, runFirstFailure_append, if_neg hflag]
    refine ⟨hA.1, hA.2.1, ?_⟩
    rw [hA.2.2.1, hinit, if_neg hflag]

theorem claim_C8_witness :
    (core_get_pm_v4 env0 res0 initSt).1 = 0 ∧
    (core_get_pm_v4 env0 res0 initSt).2.pd_dl_venus = some () := by
  have h := claim_C8_v4_get_first_failure env0 res0 initSt rfl
    (fun nm e hx => by simp [env0] at hx)
  constructor
  · rw [h.1]
    decide
  · rw [h.2.2]
    decide
